import Mathlib

/-!
Verification of the incremental enrichment-and-caching pipeline of the
Music_Search_MCP repository, as a shallow embedding of the Python sources
(`music_search_mcp/cli.py`, `lyrics_cache.py`, `lyrics_client.py`,
`song_store.py`, `vector_store.py`).

Modelling conventions:
  * Python dicts that carry song data become Lean structures; a missing key
    that the source reads with `.get(k, default)` becomes the default value.
  * The lyrics-cache JSON dict becomes an association list (`Cache`) with
    Python-dict update semantics (overwrite in place keeps the position, a
    new key is appended).  The JSON file on disk becomes a `FileState`.
  * The external LRCLIB lookup becomes an abstract function
    `LookupParams → LookupOutcome` (found / HTTP-404 not found / raised
    network error), mirroring the design note of the spec.
  * The sequential enrichment loop of `cmd_lyrics_enrich` becomes the
    structurally recursive `run_engine`; a user interrupt caught at the
    loop boundary after `n` complete iterations becomes
    `run_engine_interrupted`.
-/

namespace MusicSearch

/-! ## Data model -/

/-- A song record as stored in the local song store.  Spotify rows carry
`name`, `artists` (a list), `album`, `duration_ms`; Last.fm rows carry
`name` and `artist`.  A field that the source reads with a `.get` default
is modelled as that default when absent. -/
structure Song where
  name : String
  artists : List String
  artist : String
  album : String
  duration_ms : Option Nat
deriving DecidableEq

/-- Which provider's field layout the song dict uses (`source` strings
"spotify" / "lastfm" in the Python code). -/
inductive Source
  | spotify
  | lastfm
deriving DecidableEq

/-- `_get_artist_name` (cli.py 112-117): first Spotify artist (or "" when
the list is empty), or the single Last.fm artist field. -/
def get_artist_name (song : Song) (source : Source) : String :=
  match source with
  | .spotify => song.artists.headD ""
  | .lastfm => song.artist

/-- Python `str.lower()` on one character (ASCII range; non-ASCII
characters of the repository's data are left unchanged). -/
def py_lower_char (c : Char) : Char :=
  if 65 ≤ c.toNat ∧ c.toNat ≤ 90 then Char.ofNat (c.toNat + 32) else c

/-- Python `str.lower()`. -/
def py_lower (s : String) : String :=
  ⟨s.data.map py_lower_char⟩

/-- The whitespace characters Python `str.strip()` removes (ASCII). -/
def py_is_space (c : Char) : Bool :=
  c == ' ' || c == '\t' || c == '\n' || c == '\r' || c == '\x0b' || c == '\x0c'

/-- Python `str.strip()`: drop whitespace from both ends. -/
def py_strip (s : String) : String :=
  ⟨((s.data.dropWhile py_is_space).reverse.dropWhile py_is_space).reverse⟩

/-- `_make_key` (lyrics_cache.py 15-17): normalized cache key
`f"{track.strip().lower()}||{artist.strip().lower()}"`. -/
def make_key (track_name artist_name : String) : String :=
  py_lower (py_strip track_name) ++ "||" ++ py_lower (py_strip artist_name)

/-- One value of the lyrics-cache dict, as written by
`save_lyrics_to_cache` (lyrics_cache.py 65-72). -/
structure CacheEntry where
  track_name : String
  artist_name : String
  plain_lyrics : Option String
  synced_lyrics : Option String
  instrumental : Bool
  lyrics_found : Bool
deriving DecidableEq

/-- The lyrics-cache JSON object: key → entry, in insertion order. -/
abbrev Cache := List (String × CacheEntry)

/-- Python dict read `cache.get(key)`: first (only) binding of `key`. -/
def dictLookup (cache : Cache) (key : String) : Option CacheEntry :=
  match cache with
  | [] => none
  | p :: rest => if p.1 = key then some p.2 else dictLookup rest key

/-- Python dict write `cache[key] = v`: overwrite in place if the key is
present, otherwise append (Python dicts preserve insertion order). -/
def dictInsert (cache : Cache) (key : String) (v : CacheEntry) : Cache :=
  match cache with
  | [] => [(key, v)]
  | p :: rest =>
      if p.1 = key then (key, v) :: rest
      else p :: dictInsert rest key v

theorem dictLookup_nil (k : String) : dictLookup [] k = none := rfl

theorem dictLookup_dictInsert_self (c : Cache) (k : String) (v : CacheEntry) :
    dictLookup (dictInsert c k v) k = some v := by
  induction c with
  | nil => simp [dictInsert, dictLookup]
  | cons p rest ih =>
      by_cases h : p.1 = k
      · simp [dictInsert, dictLookup, h]
      · simp [dictInsert, dictLookup, h, ih]

theorem dictLookup_dictInsert_ne (c : Cache) (k k' : String) (v : CacheEntry)
    (h : k' ≠ k) : dictLookup (dictInsert c k v) k' = dictLookup c k' := by
  induction c with
  | nil => simp [dictInsert, dictLookup, Ne.symm h]
  | cons p rest ih =>
      by_cases hp : p.1 = k
      · simp [dictInsert, dictLookup, hp, Ne.symm h]
      · by_cases hp' : p.1 = k'
        · simp [dictInsert, dictLookup, hp', h]
        · simp [dictInsert, dictLookup, hp, hp', ih]

theorem length_dictInsert_absent (c : Cache) (k : String) (v : CacheEntry)
    (h : dictLookup c k = none) : (dictInsert c k v).length = c.length + 1 := by
  induction c with
  | nil => simp [dictInsert]
  | cons p rest ih =>
      by_cases hp : p.1 = k
      · rw [dictLookup, if_pos hp] at h
        exact absurd h (by simp)
      · rw [dictLookup, if_neg hp] at h
        simp [dictInsert, hp, ih h]

/-! ## Lyrics cache API (lyrics_cache.py) -/

/-- The four lyrics fields that `save_lyrics_to_cache` reads from the
enriched result dict (`lyrics_data.get(...)`, lyrics_cache.py 68-71). -/
structure LyricsData where
  plain_lyrics : Option String
  synced_lyrics : Option String
  instrumental : Bool
  lyrics_found : Bool
deriving DecidableEq

/-- The entry that `save_lyrics_to_cache` writes (lyrics_cache.py 65-72). -/
def mkCacheEntry (track_name artist_name : String) (d : LyricsData) : CacheEntry :=
  { track_name := track_name
    artist_name := artist_name
    plain_lyrics := d.plain_lyrics
    synced_lyrics := d.synced_lyrics
    instrumental := d.instrumental
    lyrics_found := d.lyrics_found }

/-- `get_cached_lyrics` (lyrics_cache.py 39-52): point lookup by the
normalized key. -/
def get_cached_lyrics (cache : Cache) (track_name artist_name : String) :
    Option CacheEntry :=
  dictLookup cache (make_key track_name artist_name)

/-- `save_lyrics_to_cache` (lyrics_cache.py 55-73): load the whole mapping,
insert/overwrite one entry, persist the whole mapping. -/
def save_lyrics_to_cache (cache : Cache) (track_name artist_name : String)
    (d : LyricsData) : Cache :=
  dictInsert cache (make_key track_name artist_name)
    (mkCacheEntry track_name artist_name d)

/-! ## Lyrics client (lyrics_client.py) -/

/-- The query parameters that `fetch_lyrics_for_songs` builds for
`get_lyrics` (lyrics_client.py 108-128). -/
structure LookupParams where
  track_name : String
  artist_name : String
  album_name : String
  duration : Option Nat
deriving DecidableEq

/-- The fields of a parsed LRCLIB response that the enrichment path uses
(`_parse_lrclib_result`, lyrics_client.py 144-155). -/
structure LyricsResult where
  plain_lyrics : Option String
  synced_lyrics : Option String
  instrumental : Bool
deriving DecidableEq

/-- Outcome of one `get_lyrics` call: a parsed result, an HTTP 404 (the
function returns `None`), or any raised failure (network error, malformed
response, non-2xx status — `raise_for_status`/httpx exceptions). -/
inductive LookupOutcome
  | found (r : LyricsResult)
  | notFound
  | providerError
deriving DecidableEq

/-- The per-source parameter extraction of `fetch_lyrics_for_songs`
(lyrics_client.py 109-118). -/
def build_lookup_params (song : Song) (source : Source) : LookupParams :=
  match source with
  | .spotify =>
      { track_name := song.name
        artist_name := song.artists.headD ""
        album_name := song.album
        duration :=
          match song.duration_ms with
          | some d => if d ≠ 0 then some (d / 1000) else none
          | none => none }
  | .lastfm =>
      { track_name := song.name
        artist_name := song.artist
        album_name := song.album
        duration := none }

/-- The original song dict plus the four lyrics fields that
`fetch_lyrics_for_songs` adds (lyrics_client.py 132-138). -/
structure EnrichedSong where
  song : Song
  plain_lyrics : Option String
  synced_lyrics : Option String
  instrumental : Bool
  lyrics_found : Bool
deriving DecidableEq

/-- The body of the `fetch_lyrics_for_songs` loop for one song
(lyrics_client.py 122-139): a caught exception and a 404 both yield
`lyrics = None`, hence `lyrics_found=False` and no lyrics fields. -/
def enrich_one (provider : LookupParams → LookupOutcome) (source : Source)
    (song : Song) : EnrichedSong :=
  match provider (build_lookup_params song source) with
  | .found r =>
      { song := song
        plain_lyrics := r.plain_lyrics
        synced_lyrics := r.synced_lyrics
        instrumental := r.instrumental
        lyrics_found := true }
  | .notFound =>
      { song := song, plain_lyrics := none, synced_lyrics := none
        instrumental := false, lyrics_found := false }
  | .providerError =>
      { song := song, plain_lyrics := none, synced_lyrics := none
        instrumental := false, lyrics_found := false }

/-- `fetch_lyrics_for_songs` (lyrics_client.py 89-141). -/
def fetch_lyrics_for_songs (provider : LookupParams → LookupOutcome)
    (songs : List Song) (source : Source) : List EnrichedSong :=
  songs.map (enrich_one provider source)

theorem enrich_one_song (provider : LookupParams → LookupOutcome)
    (source : Source) (song : Song) :
    (enrich_one provider source song).song = song := by
  unfold enrich_one
  cases provider (build_lookup_params song source) <;> rfl

/-! ## Enrichment engine (cli.py `cmd_lyrics_enrich`, lines 294-419) -/

/-- Output of the per-track loop: the in-memory result list, the final
cache state, and the two call counters. -/
structure RunOutput where
  enriched : List EnrichedSong
  cache : Cache
  cached_hits : Nat
  api_lookups : Nat
deriving DecidableEq

/-- Rebuilding the enriched result from a cache hit (cli.py 369-375):
`{**song, "plain_lyrics": cached[...], ...}`. -/
def entry_to_enriched (song : Song) (e : CacheEntry) : EnrichedSong :=
  { song := song
    plain_lyrics := e.plain_lyrics
    synced_lyrics := e.synced_lyrics
    instrumental := e.instrumental
    lyrics_found := e.lyrics_found }

/-- The lyrics fields that `save_lyrics_to_cache` extracts from an
enriched result (cli.py 380, lyrics_cache.py 68-71). -/
def enriched_to_lyrics_data (r : EnrichedSong) : LyricsData :=
  { plain_lyrics := r.plain_lyrics
    synced_lyrics := r.synced_lyrics
    instrumental := r.instrumental
    lyrics_found := r.lyrics_found }

/-- `cached = None if force else get_cached_lyrics(track_name, artist)`
(cli.py 365). -/
def engine_cached (cache : Cache) (source : Source) (force : Bool)
    (song : Song) : Option CacheEntry :=
  if force then none
  else get_cached_lyrics cache song.name (get_artist_name song source)

/-- The sequential enrichment loop (cli.py 357-388): consult the cache
(unless `force`), on a miss call the provider and persist the result via
`save_lyrics_to_cache` *before* the next track is processed. -/
def run_engine (provider : LookupParams → LookupOutcome) (source : Source)
    (force : Bool) (cache : Cache) : List Song → RunOutput
  | [] => { enriched := [], cache := cache, cached_hits := 0, api_lookups := 0 }
  | song :: rest =>
      match engine_cached cache source force song with
      | some e =>
          let out := run_engine provider source force cache rest
          { enriched := entry_to_enriched song e :: out.enriched
            cache := out.cache
            cached_hits := out.cached_hits + 1
            api_lookups := out.api_lookups }
      | none =>
          let r := enrich_one provider source song
          let cache2 := save_lyrics_to_cache cache song.name
            (get_artist_name song source) (enriched_to_lyrics_data r)
          let out := run_engine provider source force cache2 rest
          { enriched := r :: out.enriched
            cache := out.cache
            cached_hits := out.cached_hits
            api_lookups := out.api_lookups + 1 }

/-- A user interrupt (`KeyboardInterrupt`, cli.py 390-395) caught at the
loop boundary after `n` complete iterations: the engine keeps the partial
result list and reports `interrupted` when the list was not exhausted. -/
def run_engine_interrupted (provider : LookupParams → LookupOutcome)
    (source : Source) (force : Bool) (cache : Cache) (songs : List Song)
    (n : Nat) : RunOutput × Bool :=
  (run_engine provider source force cache (songs.take n),
   decide (n < songs.length))

/-! ## Policy handling of `cmd_lyrics_enrich` (cli.py 294-348) -/

/-- Python slice `l[:k]` for an `int` bound: a negative bound keeps all
but the last `|k|` elements. -/
def py_slice_upto {α : Type} (l : List α) (k : Int) : List α :=
  if 0 ≤ k then l.take k.toNat else l.take (l.length - (-k).toNat)

/-- Python truthiness of an `int | None` option value (`if limit`,
`if new_only`): `None` and `0` are falsy. -/
def truthy_int_opt : Option Int → Bool
  | none => false
  | some k => k != 0

/-- `if limit and not new_only: songs = songs[:limit]` (cli.py 313-315). -/
def apply_limit (songs : List Song) (limit new_only : Option Int) : List Song :=
  if truthy_int_opt limit && !truthy_int_opt new_only then
    py_slice_upto songs (limit.getD 0)
  else songs

/-- The cache-miss test used by the `--new` pre-filter (cli.py 329-334). -/
def is_uncached (cache : Cache) (source : Source) (song : Song) : Bool :=
  (get_cached_lyrics cache song.name (get_artist_name song source)).isNone

/-- `if new_only and not force:` filter to uncached songs, then
`if new_only and len(songs) > new_only: songs = songs[:new_only]`
(cli.py 324-342). -/
def apply_new_only (cache : Cache) (source : Source) (songs : List Song)
    (new_only : Option Int) (force : Bool) : List Song :=
  if truthy_int_opt new_only && !force then
    let uncached := songs.filter (is_uncached cache source)
    let n := new_only.getD 0
    if (uncached.length : Int) > n then py_slice_upto uncached n else uncached
  else songs

def usage_error_msg : String :=
  "Cannot use both -n/--limit and --new at the same time."

/-- The pre-loop stage of `cmd_lyrics_enrich` (cli.py 304-342): reject
`-n` together with `--new` (checked with `is not None`, before the store
is read), else apply the `-n` slice and then the `--new` filter. -/
def plan_enrichment (cache : Cache) (source : Source) (songs : List Song)
    (force : Bool) (limit new_only : Option Int) : Except String (List Song) :=
  if limit.isSome && new_only.isSome then .error usage_error_msg
  else .ok (apply_new_only cache source (apply_limit songs limit new_only)
    new_only force)

/-- `cmd_lyrics_enrich` end to end on an already-loaded song list: policy
stage, then the enrichment loop. -/
def cmd_lyrics_enrich (provider : LookupParams → LookupOutcome)
    (source : Source) (force : Bool) (limit new_only : Option Int)
    (cache : Cache) (songs : List Song) : Except String RunOutput :=
  (plan_enrichment cache source songs force limit new_only).map
    (run_engine provider source force cache)

/-! ## Persisted local files (lyrics_cache.py / song_store.py) -/

/-- State of a persisted JSON file: missing, present but unreadable or
not valid JSON, or holding parsed data. -/
inductive FileState (α : Type)
  | absent
  | corrupt
  | valid (data : α)
deriving DecidableEq

/-- A song-store snapshot as written by `save_spotify_songs` /
`save_lastfm_scrobbles` (song_store.py 40-75). -/
structure StoreData where
  source : String
  fetched_at : String
  count : Nat
  songs : List Song
deriving DecidableEq

/-- `_load_cache` (lyrics_cache.py 20-27): a missing file and a
`JSONDecodeError`/`OSError` both yield the empty mapping. -/
def load_cache : FileState Cache → Cache
  | .valid c => c
  | .absent => []
  | .corrupt => []

/-- `_load_store` (song_store.py 21-28): a missing file and a
`JSONDecodeError`/`OSError` both yield `None`. -/
def load_store : FileState StoreData → Option StoreData
  | .valid d => some d
  | .absent => none
  | .corrupt => none

/-- `_save_store` (song_store.py 31-37): overwrite the file wholesale,
whatever its previous state. -/
def save_store (_prev : FileState StoreData) (d : StoreData) :
    FileState StoreData :=
  .valid d

/-- `get_cached_lyrics` against the on-disk file: load then look up. -/
def get_cached_lyrics_file (fs : FileState Cache) (track_name artist_name : String) :
    Option CacheEntry :=
  get_cached_lyrics (load_cache fs) track_name artist_name

/-- `save_lyrics_to_cache` against the on-disk file: load the whole
mapping, insert one entry, write the file back valid (lyrics_cache.py
30-36, 55-73). -/
def save_lyrics_to_cache_file (fs : FileState Cache)
    (track_name artist_name : String) (d : LyricsData) : FileState Cache :=
  .valid (save_lyrics_to_cache (load_cache fs) track_name artist_name d)

/-! ## Index builder (vector_store.py, cli.py `cmd_index`) -/

/-- The dict view that `build_document_text` / `index_songs` take: a
lyrics-cache entry read with `.get` defaults.  Cache entries carry no
`album` key, so `song.get("album", "")` yields `""` for them. -/
structure IndexSong where
  track_name : String
  artist_name : String
  album : String
  plain_lyrics : Option String
  instrumental : Bool
  lyrics_found : Bool
deriving DecidableEq

/-- A lyrics-cache entry as seen by the index builder. -/
def entry_to_index_song (e : CacheEntry) : IndexSong :=
  { track_name := e.track_name
    artist_name := e.artist_name
    album := ""
    plain_lyrics := e.plain_lyrics
    instrumental := e.instrumental
    lyrics_found := e.lyrics_found }

/-- Python truthiness of `song.get("plain_lyrics")`: `None` and `""` are
falsy. -/
def has_plain_lyrics (s : IndexSong) : Bool :=
  match s.plain_lyrics with
  | some l => l != ""
  | none => false

/-- `build_document_text` (vector_store.py 54-90): parts list built in
fixed order, joined with `"\n"`. -/
def build_document_text (s : IndexSong) : String :=
  let parts : List String := ["Song: " ++ s.track_name ++ " by " ++ s.artist_name]
  let parts := if s.album != "" then parts ++ ["Album: " ++ s.album] else parts
  let parts :=
    if s.instrumental then
      parts ++ ["This is an instrumental track with no vocals or lyrics."]
    else parts
  let parts :=
    if has_plain_lyrics s then
      parts ++ ["Lyrics:\n" ++ s.plain_lyrics.getD ""]
    else parts
  String.intercalate "\n" parts

/-- The skip condition of `index_songs` (vector_store.py 126): empty
stripped document, or no lyrics text and not instrumental. -/
def index_skip (s : IndexSong) : Bool :=
  py_strip (build_document_text s) == "" || (!has_plain_lyrics s && !s.instrumental)

/-- The stable id `f"{track.strip().lower()}||{artist.strip().lower()}"`
(vector_store.py 120) — the same normalization as the cache key. -/
def song_index_id (s : IndexSong) : String :=
  py_lower (py_strip s.track_name) ++ "||" ++ py_lower (py_strip s.artist_name)

/-- The document-collection loop of `index_songs` (vector_store.py
108-138): the (id, document) upserts in order, and the skipped count. -/
def index_songs (songs : List IndexSong) : List (String × String) × Nat :=
  songs.foldl
    (fun acc s =>
      if index_skip s then (acc.1, acc.2 + 1)
      else (acc.1 ++ [(song_index_id s, build_document_text s)], acc.2))
    ([], 0)

/-- The input that `cmd_index` hands to `index_songs` (cli.py 440-457):
all cache values with truthy `lyrics_found`. -/
def cmd_index_inputs (cache : Cache) : List IndexSong :=
  ((cache.map Prod.snd).filter (fun e => e.lyrics_found)).map entry_to_index_song

/-- Modelled from the spec (§4.5), for comparison with
`build_document_text`: "build a document string by concatenating, in
fixed order — identity line ("Song: X by Y"), album line if present, an
instrumental sentence if `instrumental=true`, and the full plain lyrics
block if present". -/
def document_text_spec (s : IndexSong) : String :=
  String.intercalate "\n"
    (["Song: " ++ s.track_name ++ " by " ++ s.artist_name]
      ++ (if s.album != "" then ["Album: " ++ s.album] else [])
      ++ (if s.instrumental then
            ["This is an instrumental track with no vocals or lyrics."]
          else [])
      ++ (if has_plain_lyrics s then ["Lyrics:\n" ++ s.plain_lyrics.getD ""]
          else []))

/-! ## Deduplication (cli.py `_deduplicate_songs`, lines 120-130) -/

/-- The dedup key `f"{song['name'].strip().lower()}||{artist.strip().lower()}"`
(cli.py 126) — the same normalization as the cache key. -/
def dedup_key (song : Song) (source : Source) : String :=
  make_key song.name (get_artist_name song source)

/-- The `_deduplicate_songs` loop with its `seen` set (cli.py 122-129). -/
def dedup_go (source : Source) (seen : List String) : List Song → List Song
  | [] => []
  | song :: rest =>
      if dedup_key song source ∈ seen then dedup_go source seen rest
      else song :: dedup_go source (dedup_key song source :: seen) rest

/-- `_deduplicate_songs` (cli.py 120-130). -/
def deduplicate_songs (songs : List Song) (source : Source) : List Song :=
  dedup_go source [] songs

/-- Modelled from the spec (§4.1), for comparison with
`deduplicate_songs`: a "stable, order-preserving, first-occurrence-wins
set filter keyed by `compute_key`" — keep the head, drop every later
track with the head's key, recurse. -/
def dedup_spec (source : Source) : List Song → List Song
  | [] => []
  | s :: rest =>
      s :: dedup_spec source
        (rest.filter (fun t => dedup_key t source != dedup_key s source))
termination_by l => l.length
decreasing_by
  simp only [List.length_cons]
  exact Nat.lt_succ_of_le (List.length_filter_le _ _)

/-! ## Concrete fixtures for counterexamples and witnesses -/

def song_A : Song :=
  { name := "Song A", artists := ["X"], artist := "", album := "",
    duration_ms := none }

def song_A2 : Song :=
  { name := "song a", artists := [" x "], artist := "", album := "",
    duration_ms := none }

def song_B : Song :=
  { name := "Song B", artists := ["Y"], artist := "", album := "",
    duration_ms := none }

/-- A provider that always reports HTTP 404. -/
def provider_not_found : LookupParams → LookupOutcome :=
  fun _ => .notFound

/-- A provider whose every call raises (network error). -/
def provider_error_always : LookupParams → LookupOutcome :=
  fun _ => .providerError

def lyrics_data_ex : LyricsData :=
  { plain_lyrics := some "la la la", synced_lyrics := none,
    instrumental := false, lyrics_found := true }

/-! ## Engine lemmas -/

theorem entry_roundtrip (song : Song) (track artist : String)
    (r : EnrichedSong) (h : r.song = song) :
    entry_to_enriched song (mkCacheEntry track artist (enriched_to_lyrics_data r)) = r := by
  cases r
  simp_all [entry_to_enriched, mkCacheEntry, enriched_to_lyrics_data]

/-- Unfolding the loop on a cache hit (cli.py 367-375). -/
theorem run_engine_cons_hit (provider : LookupParams → LookupOutcome)
    (source : Source) (force : Bool) (cache : Cache) (song : Song)
    (rest : List Song) (e : CacheEntry)
    (hc : engine_cached cache source force song = some e) :
    run_engine provider source force cache (song :: rest) =
      { enriched := entry_to_enriched song e ::
          (run_engine provider source force cache rest).enriched
        cache := (run_engine provider source force cache rest).cache
        cached_hits := (run_engine provider source force cache rest).cached_hits + 1
        api_lookups := (run_engine provider source force cache rest).api_lookups } := by
  rw [run_engine, hc]

/-- Unfolding the loop on a cache miss (cli.py 376-380): provider call,
then an immediate cache write that the rest of the run sees. -/
theorem run_engine_cons_miss (provider : LookupParams → LookupOutcome)
    (source : Source) (force : Bool) (cache : Cache) (song : Song)
    (rest : List Song)
    (hc : engine_cached cache source force song = none) :
    run_engine provider source force cache (song :: rest) =
      { enriched := enrich_one provider source song ::
          (run_engine provider source force
            (save_lyrics_to_cache cache song.name (get_artist_name song source)
              (enriched_to_lyrics_data (enrich_one provider source song)))
            rest).enriched
        cache := (run_engine provider source force
            (save_lyrics_to_cache cache song.name (get_artist_name song source)
              (enriched_to_lyrics_data (enrich_one provider source song)))
            rest).cache
        cached_hits := (run_engine provider source force
            (save_lyrics_to_cache cache song.name (get_artist_name song source)
              (enriched_to_lyrics_data (enrich_one provider source song)))
            rest).cached_hits
        api_lookups := (run_engine provider source force
            (save_lyrics_to_cache cache song.name (get_artist_name song source)
              (enriched_to_lyrics_data (enrich_one provider source song)))
            rest).api_lookups + 1 } := by
  rw [run_engine, hc]

/-- The loop appends exactly one result per processed track. -/
theorem run_engine_enriched_length (provider : LookupParams → LookupOutcome)
    (source : Source) (force : Bool) (songs : List Song) : ∀ cache : Cache,
    (run_engine provider source force cache songs).enriched.length = songs.length := by
  induction songs with
  | nil => intro cache; rfl
  | cons song rest ih =>
      intro cache
      cases hc : engine_cached cache source force song with
      | some e => rw [run_engine_cons_hit provider source force cache song rest e hc]; simp [ih]
      | none => rw [run_engine_cons_miss provider source force cache song rest hc]; simp [ih]

/-- Running the loop on a prefix yields the prefix of the full run's
result list (the cache threading up to that point is identical). -/
theorem run_engine_take (provider : LookupParams → LookupOutcome)
    (source : Source) (force : Bool) (songs : List Song) :
    ∀ (n : Nat) (cache : Cache),
    (run_engine provider source force cache (songs.take n)).enriched =
      (run_engine provider source force cache songs).enriched.take n := by
  induction songs with
  | nil => intro n cache; simp [run_engine]
  | cons song rest ih =>
      intro n cache
      cases n with
      | zero => simp [run_engine]
      | succ m =>
          rw [List.take_succ_cons]
          cases hc : engine_cached cache source force song with
          | some e =>
              rw [run_engine_cons_hit provider source force cache song (rest.take m) e hc,
                run_engine_cons_hit provider source force cache song rest e hc]
              simp [ih]
          | none =>
              rw [run_engine_cons_miss provider source force cache song (rest.take m) hc,
                run_engine_cons_miss provider source force cache song rest hc]
              simp [ih]

/-- With `force=false` the loop never overwrites an existing cache entry:
it writes only at keys that were absent when the track was processed. -/
theorem run_engine_preserves_entry (provider : LookupParams → LookupOutcome)
    (source : Source) (songs : List Song) :
    ∀ (cache : Cache) (k : String) (e : CacheEntry),
    dictLookup cache k = some e →
    dictLookup (run_engine provider source false cache songs).cache k = some e := by
  induction songs with
  | nil => intro cache k e h; exact h
  | cons song rest ih =>
      intro cache k e h
      cases hc : engine_cached cache source false song with
      | some e2 =>
          rw [run_engine_cons_hit provider source false cache song rest e2 hc]
          exact ih cache k e h
      | none =>
          rw [run_engine_cons_miss provider source false cache song rest hc]
          have hkey : dictLookup cache (make_key song.name (get_artist_name song source)) = none := by
            simpa [engine_cached, get_cached_lyrics] using hc
          have hne : k ≠ make_key song.name (get_artist_name song source) := by
            intro heq
            rw [heq, hkey] at h
            exact Option.noConfusion h
          refine ih _ k e ?_
          exact (dictLookup_dictInsert_ne cache _ k _ hne).trans h

/-- Replaying a `force=false` run against any cache that already holds
every entry the first run ended with: same result list, all cache hits,
no provider calls, no cache writes. -/
theorem run_engine_replay (provider : LookupParams → LookupOutcome)
    (source : Source) (songs : List Song) :
    ∀ (c d : Cache),
    (∀ k e, dictLookup (run_engine provider source false c songs).cache k = some e →
      dictLookup d k = some e) →
    (run_engine provider source false d songs).enriched =
        (run_engine provider source false c songs).enriched
    ∧ (run_engine provider source false d songs).api_lookups = 0
    ∧ (run_engine provider source false d songs).cache = d
    ∧ (run_engine provider source false d songs).cached_hits = songs.length := by
  induction songs with
  | nil => exact fun c d _ => ⟨rfl, rfl, rfl, rfl⟩
  | cons song rest ih =>
      intro c d hd
      cases hc : engine_cached c source false song with
      | some e =>
          have hck : dictLookup c (make_key song.name (get_artist_name song source)) = some e := by
            simpa [engine_cached, get_cached_lyrics] using hc
          have h1 : dictLookup (run_engine provider source false c rest).cache
              (make_key song.name (get_artist_name song source)) = some e :=
            run_engine_preserves_entry provider source rest c _ e hck
          have hd' : ∀ k e', dictLookup (run_engine provider source false c rest).cache k = some e' →
              dictLookup d k = some e' := by
            intro k e' hk
            refine hd k e' ?_
            rw [run_engine_cons_hit provider source false c song rest e hc]
            exact hk
          have hdk : dictLookup d (make_key song.name (get_artist_name song source)) = some e :=
            hd' _ e h1
          have hdc : engine_cached d source false song = some e := by
            simpa [engine_cached, get_cached_lyrics] using hdk
          obtain ⟨ha, hb, hcch, hh⟩ := ih c d hd'
          rw [run_engine_cons_hit provider source false d song rest e hdc,
            run_engine_cons_hit provider source false c song rest e hc]
          exact ⟨by simpa using ha, by simpa using hb, by simpa using hcch, by simpa using hh⟩
      | none =>
          have hrsong : (enrich_one provider source song).song = song :=
            enrich_one_song provider source song
          have h2 : dictLookup (save_lyrics_to_cache c song.name (get_artist_name song source)
              (enriched_to_lyrics_data (enrich_one provider source song)))
              (make_key song.name (get_artist_name song source)) =
              some (mkCacheEntry song.name (get_artist_name song source)
                (enriched_to_lyrics_data (enrich_one provider source song))) :=
            dictLookup_dictInsert_self _ _ _
          have h3 := run_engine_preserves_entry provider source rest _ _ _ h2
          have hd' : ∀ k e', dictLookup (run_engine provider source false
              (save_lyrics_to_cache c song.name (get_artist_name song source)
                (enriched_to_lyrics_data (enrich_one provider source song))) rest).cache k = some e' →
              dictLookup d k = some e' := by
            intro k e' hk
            refine hd k e' ?_
            rw [run_engine_cons_miss provider source false c song rest hc]
            exact hk
          have hdk := hd' _ _ h3
          have hdc : engine_cached d source false song =
              some (mkCacheEntry song.name (get_artist_name song source)
                (enriched_to_lyrics_data (enrich_one provider source song))) := by
            simpa [engine_cached, get_cached_lyrics] using hdk
          obtain ⟨ha, hb, hcch, hh⟩ := ih _ d hd'
          rw [run_engine_cons_miss provider source false c song rest hc,
            run_engine_cons_hit provider source false d song rest _ hdc]
          refine ⟨?_, by simpa using hb, by simpa using hcch, by simpa using hh⟩
          simp only []
          rw [entry_roundtrip song song.name (get_artist_name song source) _ hrsong, ha]

/-- Processing tracks with pairwise-distinct keys, all absent from the
starting cache, adds exactly one cache entry per track (any `force`). -/
theorem run_engine_cache_length (provider : LookupParams → LookupOutcome)
    (source : Source) (force : Bool) (songs : List Song) :
    ∀ (c : Cache),
    List.Pairwise (fun a b => dedup_key a source ≠ dedup_key b source) songs →
    (∀ s ∈ songs, dictLookup c (dedup_key s source) = none) →
    (run_engine provider source force c songs).cache.length = c.length + songs.length := by
  induction songs with
  | nil => intro c _ _; simp [run_engine]
  | cons song rest ih =>
      intro c hpw habs
      have hkey : dictLookup c (make_key song.name (get_artist_name song source)) = none :=
        habs song (List.mem_cons_self _ _)
      have hc : engine_cached c source force song = none := by
        cases force <;> simp [engine_cached, get_cached_lyrics, hkey]
      rw [run_engine_cons_miss provider source force c song rest hc]
      have hlen2 : (save_lyrics_to_cache c song.name (get_artist_name song source)
          (enriched_to_lyrics_data (enrich_one provider source song))).length = c.length + 1 :=
        length_dictInsert_absent _ _ _ hkey
      have habs' : ∀ s ∈ rest,
          dictLookup (save_lyrics_to_cache c song.name (get_artist_name song source)
            (enriched_to_lyrics_data (enrich_one provider source song)))
            (dedup_key s source) = none := by
        intro s hs
        have hne : dedup_key s source ≠ dedup_key song source :=
          Ne.symm (List.rel_of_pairwise_cons hpw hs)
        exact (dictLookup_dictInsert_ne c _ _ _ hne).trans
          (habs s (List.mem_cons_of_mem _ hs))
      have hrest := ih _ (List.Pairwise.of_cons hpw) habs'
      simp only []
      rw [hrest, hlen2]
      simp [Nat.add_assoc, Nat.add_comm 1 rest.length]

/-! ## Index-builder lemmas -/

/-- `build_document_text` builds exactly the spec's fixed-order
concatenation: identity line, album line if present, instrumental
sentence if instrumental, plain-lyrics block if present. -/
theorem build_document_text_eq_spec (s : IndexSong) :
    build_document_text s = document_text_spec s := by
  unfold build_document_text document_text_spec
  cases ha : (s.album != "") <;> cases hi : s.instrumental <;>
    cases hl : has_plain_lyrics s <;> simp [ha, hi, hl]

/-- The collection loop of `index_songs`, characterized: upserts are
exactly the non-skipped songs in order, the skipped count is exactly the
number of skipped songs. -/
theorem index_songs_foldl (songs : List IndexSong) :
    ∀ acc : List (String × String) × Nat,
    songs.foldl
      (fun acc s =>
        if index_skip s then (acc.1, acc.2 + 1)
        else (acc.1 ++ [(song_index_id s, build_document_text s)], acc.2))
      acc =
    (acc.1 ++ (songs.filter (fun s => !index_skip s)).map
        (fun s => (song_index_id s, build_document_text s)),
      acc.2 + (songs.filter index_skip).length) := by
  induction songs with
  | nil => intro acc; simp
  | cons s rest ih =>
      intro acc
      by_cases h : index_skip s <;>
        simp [h, ih, List.filter_cons, Nat.add_assoc, Nat.add_comm 1]

/-! ## Deduplication lemmas -/

/-- Unfolding the spec-side filter on a cons cell. -/
theorem dedup_spec_cons (source : Source) (s : Song) (rest : List Song) :
    dedup_spec source (s :: rest) =
      s :: dedup_spec source
        (rest.filter (fun t => dedup_key t source != dedup_key s source)) := by
  rw [dedup_spec]

/-- The `seen`-set loop of `_deduplicate_songs` is the spec's
first-occurrence-wins filter, applied to the songs whose key is not yet
`seen`. -/
theorem dedup_go_eq_spec (source : Source) (l : List Song) :
    ∀ seen : List String,
    dedup_go source seen l =
      dedup_spec source
        (l.filter (fun t => decide (dedup_key t source ∉ seen))) := by
  induction l with
  | nil => intro seen; simp [dedup_go, dedup_spec]
  | cons s rest ih =>
      intro seen
      by_cases h : dedup_key s source ∈ seen
      · rw [dedup_go, if_pos h, List.filter_cons]
        simp only [h, not_true_eq_false, decide_False, Bool.false_eq_true,
          if_false]
        exact ih seen
      · rw [dedup_go, if_neg h, List.filter_cons]
        simp only [h, not_false_eq_true, decide_True, if_true]
        rw [dedup_spec_cons]
        congr 1
        rw [ih (dedup_key s source :: seen), List.filter_filter]
        congr 1
        refine List.filter_congr ?_
        intro t _
        by_cases h1 : dedup_key t source = dedup_key s source <;>
          by_cases h2 : dedup_key t source ∈ seen <;>
          simp [h1, h2, List.mem_cons]

/-- The dedup result is a sublist of the input: order-preserving, every
kept element is an input element. -/
theorem dedup_go_sublist (source : Source) (l : List Song) :
    ∀ seen : List String, (dedup_go source seen l).Sublist l := by
  induction l with
  | nil => intro seen; simp [dedup_go]
  | cons s rest ih =>
      intro seen
      by_cases h : dedup_key s source ∈ seen
      · rw [dedup_go, if_pos h]
        exact (ih seen).cons s
      · rw [dedup_go, if_neg h]
        exact (ih _).cons₂ s

/-- The dedup result has pairwise-distinct keys, none of them `seen`. -/
theorem dedup_go_pairwise (source : Source) (l : List Song) :
    ∀ seen : List String,
    (dedup_go source seen l).Pairwise
        (fun a b => dedup_key a source ≠ dedup_key b source)
    ∧ ∀ s ∈ dedup_go source seen l, dedup_key s source ∉ seen := by
  induction l with
  | nil => intro seen; simp [dedup_go]
  | cons s rest ih =>
      intro seen
      by_cases h : dedup_key s source ∈ seen
      · rw [dedup_go, if_pos h]
        exact ih seen
      · rw [dedup_go, if_neg h]
        obtain ⟨hpw, hmem⟩ := ih (dedup_key s source :: seen)
        refine ⟨List.Pairwise.cons ?_ hpw, ?_⟩
        · intro b hb heq
          exact hmem b hb (by rw [← heq]; exact List.mem_cons_self _ _)
        · intro t ht
          rcases List.mem_cons.mp ht with rfl | ht'
          · exact h
          · exact fun hseen => hmem t ht' (List.mem_cons_of_mem _ hseen)

/-! ## Claim theorems -/

/-- C1 counterexample: starting from an empty cache, a run over two
tracks whose names differ only in case ("Song A" by "X" and "song a" by
" x ") and is interrupted after both were processed leaves ONE cache
entry, not two — the second track is served from the entry the first
track just wrote, so no second `put` happens. -/
theorem claim1_counterexample :
    (run_engine_interrupted provider_not_found Source.spotify false []
      [song_A, song_A2] 2).1.cache.length = 1
    ∧ (run_engine_interrupted provider_not_found Source.spotify false []
      [song_A, song_A2] 2).1.cache.length ≠ 2 := by
  decide

/-- C1 (amended): during enrichment every provider-lookup result is
persisted via `put` before the next track is processed; hence for any run
interrupted after processing a prefix of N tracks, starting from an empty
cache, *provided those N tracks have pairwise-distinct lookup keys*, the
cache contains exactly N entries, the partial result list is the prefix
of the uninterrupted run's list, and the engine reports interrupted=true
exactly when the list was not exhausted, rather than failing. -/
theorem claim1_interrupted_run (provider : LookupParams → LookupOutcome)
    (source : Source) (force : Bool) (songs : List Song) (n : Nat)
    (hn : n ≤ songs.length)
    (hpw : List.Pairwise (fun a b => dedup_key a source ≠ dedup_key b source)
      (songs.take n)) :
    (run_engine_interrupted provider source force [] songs n).1 =
        run_engine provider source force [] (songs.take n)
    ∧ (run_engine_interrupted provider source force [] songs n).1.cache.length = n
    ∧ (run_engine_interrupted provider source force [] songs n).1.enriched =
        (run_engine provider source force [] songs).enriched.take n
    ∧ ((run_engine_interrupted provider source force [] songs n).2 = true ↔
        n < songs.length) := by
  refine ⟨rfl, ?_, ?_, ?_⟩
  · have h := run_engine_cache_length provider source force (songs.take n) []
      hpw (fun s _ => rfl)
    simpa [List.length_take, Nat.min_eq_left hn] using h
  · exact run_engine_take provider source force songs n []
  · simp [run_engine_interrupted]

theorem claim1_interrupted_run_witness :
    1 ≤ ([song_A, song_B] : List Song).length
    ∧ (run_engine_interrupted provider_not_found Source.spotify false []
        [song_A, song_B] 1).1.cache.length = 1
    ∧ ((run_engine_interrupted provider_not_found Source.spotify false []
        [song_A, song_B] 1).2 = true ↔ 1 < ([song_A, song_B] : List Song).length) := by
  have h := claim1_interrupted_run provider_not_found Source.spotify false
    [song_A, song_B] 1 (by decide) (by decide)
  exact ⟨by decide, h.2.1, h.2.2.2⟩

/-- C2: running the engine a second time over the same track list with
`force=false`, against the cache state the first run left behind, yields
the identical enriched list, makes zero provider calls (every track is a
cache hit), and writes nothing to the cache. -/
theorem claim2_idempotent (provider : LookupParams → LookupOutcome)
    (source : Source) (cache : Cache) (songs : List Song) :
    (run_engine provider source false
        (run_engine provider source false cache songs).cache songs).enriched =
      (run_engine provider source false cache songs).enriched
    ∧ (run_engine provider source false
        (run_engine provider source false cache songs).cache songs).api_lookups = 0
    ∧ (run_engine provider source false
        (run_engine provider source false cache songs).cache songs).cache =
      (run_engine provider source false cache songs).cache
    ∧ (run_engine provider source false
        (run_engine provider source false cache songs).cache songs).cached_hits =
      songs.length := by
  have h := run_engine_replay provider source songs cache
    (run_engine provider source false cache songs).cache (fun _ _ hk => hk)
  exact ⟨h.1, h.2.1, h.2.2.1, h.2.2.2⟩

/-- C3: the cap option `-n` together with `--new` (both non-None) is
rejected as a usage error before the store is read, before any track is
processed and before any provider call or cache write. -/
theorem claim3_conflicting_options (provider : LookupParams → LookupOutcome)
    (source : Source) (force : Bool) (cache : Cache) (songs : List Song)
    (a b : Int) :
    plan_enrichment cache source songs force (some a) (some b) =
      .error usage_error_msg
    ∧ cmd_lyrics_enrich provider source force (some a) (some b) cache songs =
      .error usage_error_msg := by
  exact ⟨rfl, rfl⟩

/-- C4 counterexample: with `cap = 0` the truthiness test
`if limit and not new_only` fails, so no truncation happens — a
one-track list is processed in full (1 track), violating "at most 0". -/
theorem claim4_counterexample :
    plan_enrichment [] Source.spotify [song_A] false (some 0) none = .ok [song_A]
    ∧ (run_engine provider_not_found Source.spotify false [] [song_A]).enriched.length = 1
    ∧ ¬ ((run_engine provider_not_found Source.spotify false []
        [song_A]).enriched.length ≤ 0) := by
  exact ⟨rfl, by decide, by decide⟩

/-- C4 (amended): for every *positive* cap k (with new_only unset) the
loaded track list is truncated to its first k tracks before the loop, so
the engine processes at most k tracks total (cache hits included) and
tracks beyond the first k are never looked up in cache or provider.
(A cap of 0 is treated as "no cap" and a negative cap slices from the
end, both by Python truthiness/slice semantics.) -/
theorem claim4_cap_positive (provider : LookupParams → LookupOutcome)
    (source : Source) (force : Bool) (cache : Cache) (songs : List Song)
    (k : Int) (hk : 0 < k) :
    plan_enrichment cache source songs force (some k) none =
      .ok (songs.take k.toNat)
    ∧ cmd_lyrics_enrich provider source force (some k) none cache songs =
      .ok (run_engine provider source force cache (songs.take k.toNat))
    ∧ (run_engine provider source force cache (songs.take k.toNat)).enriched.length
        ≤ k.toNat := by
  have hbne : (k != 0) = true := bne_iff_ne.mpr hk.ne'
  have hplan : plan_enrichment cache source songs force (some k) none =
      .ok (songs.take k.toNat) := by
    simp [plan_enrichment, apply_limit, apply_new_only, truthy_int_opt, hbne,
      py_slice_upto, hk.le]
  refine ⟨hplan, ?_, ?_⟩
  · simp only [cmd_lyrics_enrich, hplan]
    rfl
  · rw [run_engine_enriched_length]
    exact List.length_take_le _ _

theorem claim4_cap_positive_witness :
    (0 : Int) < 1
    ∧ plan_enrichment [] Source.spotify [song_A, song_B] false (some 1) none =
        .ok [song_A] := by
  refine ⟨by decide, ?_⟩
  exact (claim4_cap_positive provider_not_found Source.spotify false []
    [song_A, song_B] 1 (by decide)).1

/-- C5 counterexample: with `force=true` the `--new` filter block
(`if new_only and not force`) is skipped entirely, so `new_only=1` over
two uncached songs processes both, not the first uncached one; and
`new_only=0` is falsy, so no filtering happens either. -/
theorem claim5_counterexample :
    plan_enrichment [] Source.spotify [song_A, song_B] true none (some 1) =
      .ok [song_A, song_B]
    ∧ ([song_A, song_B] : List Song) ≠ [song_A]
    ∧ plan_enrichment [] Source.spotify [song_A] false none (some 0) = .ok [song_A]
    ∧ ([song_A] : List Song) ≠ [] := by
  exact ⟨rfl, by decide, rfl, by decide⟩

/-- C5 (amended): whenever new_only is set to a *positive* N, cap is
unset and `force=false`, the engine filters the loaded list to tracks
with no cache entry, truncates the filtered list to its first N
elements, and processes exactly those tracks.  (With `force=true`, or
N=0, the filter/truncation block is skipped and every loaded track is
processed.) -/
theorem claim5_new_only (provider : LookupParams → LookupOutcome)
    (source : Source) (cache : Cache) (songs : List Song)
    (n : Int) (hn : 0 < n) :
    plan_enrichment cache source songs false none (some n) =
      .ok ((songs.filter (is_uncached cache source)).take n.toNat)
    ∧ cmd_lyrics_enrich provider source false none (some n) cache songs =
      .ok (run_engine provider source false cache
        ((songs.filter (is_uncached cache source)).take n.toNat)) := by
  have hbne : (n != 0) = true := bne_iff_ne.mpr hn.ne'
  have hplan : plan_enrichment cache source songs false none (some n) =
      .ok ((songs.filter (is_uncached cache source)).take n.toNat) := by
    simp only [plan_enrichment, apply_limit, apply_new_only, truthy_int_opt,
      Option.isSome_none, Bool.and_false, Bool.false_and, Bool.and_self,
      Bool.false_eq_true, if_false, hbne, Bool.not_false, Bool.and_true,
      if_true, Option.getD_some]
    split
    · simp [py_slice_upto, hn.le]
    · next h =>
        rw [List.take_of_length_le]
        omega
  refine ⟨hplan, ?_⟩
  simp only [cmd_lyrics_enrich, hplan]
  rfl

theorem claim5_new_only_witness :
    (0 : Int) < 1
    ∧ plan_enrichment [] Source.spotify [song_A, song_B] false none (some 1) =
        .ok [song_A] := by
  refine ⟨by decide, ?_⟩
  exact (claim5_new_only provider_not_found Source.spotify [] [song_A, song_B]
    1 (by decide)).1

/-- C6: for every song in a batch, a provider lookup that raises (network
error, malformed response — any exception) or returns not-found yields an
entry with lyrics_found=false, no plain or synced lyrics and
instrumental=false, and the remaining songs are still processed (one
output per input, each computed independently). -/
theorem claim6_provider_failure (provider : LookupParams → LookupOutcome)
    (songs : List Song) (source : Source) :
    (fetch_lyrics_for_songs provider songs source).length = songs.length
    ∧ (∀ (i : Nat) (song : Song), songs[i]? = some song →
        (provider (build_lookup_params song source) = .notFound ∨
         provider (build_lookup_params song source) = .providerError) →
        (fetch_lyrics_for_songs provider songs source)[i]? =
          some { song := song, plain_lyrics := none, synced_lyrics := none,
                 instrumental := false, lyrics_found := false })
    ∧ (∀ (i : Nat) (song : Song), songs[i]? = some song →
        (fetch_lyrics_for_songs provider songs source)[i]? =
          some (enrich_one provider source song)) := by
  refine ⟨by simp [fetch_lyrics_for_songs], ?_, ?_⟩
  · intro i song hi hp
    have h : (fetch_lyrics_for_songs provider songs source)[i]? =
        some (enrich_one provider source song) := by
      simp [fetch_lyrics_for_songs, hi]
    rw [h]
    rcases hp with hcase | hcase <;> simp [enrich_one, hcase]
  · intro i song hi
    simp [fetch_lyrics_for_songs, hi]

theorem claim6_provider_failure_witness :
    ([song_A] : List Song)[0]? = some song_A
    ∧ (fetch_lyrics_for_songs provider_error_always [song_A] Source.spotify)[0]? =
        some { song := song_A, plain_lyrics := none, synced_lyrics := none,
               instrumental := false, lyrics_found := false } := by
  refine ⟨rfl, ?_⟩
  exact (claim6_provider_failure provider_error_always [song_A]
    Source.spotify).2.1 0 song_A rfl (Or.inr rfl)

/-- C7: a corrupt (or missing) cache file loads as the empty mapping and
a corrupt (or missing) store file loads as None — both total, never a
fatal error; lookups against a corrupt file see an empty cache, a `put`
rebuilds a fresh valid cache file containing exactly the new entry, and a
store save rebuilds a fresh valid snapshot that loads again. -/
theorem claim7_corrupt_files (t a : String) (d : LyricsData) (sd : StoreData)
    (prev : FileState StoreData) :
    load_cache .corrupt = [] ∧ load_cache .absent = []
    ∧ load_store .corrupt = none ∧ load_store .absent = none
    ∧ get_cached_lyrics_file .corrupt t a = none
    ∧ save_lyrics_to_cache_file .corrupt t a d =
        .valid [(make_key t a, mkCacheEntry t a d)]
    ∧ get_cached_lyrics_file (save_lyrics_to_cache_file .corrupt t a d) t a =
        some (mkCacheEntry t a d)
    ∧ save_store prev sd = .valid sd
    ∧ load_store (save_store prev sd) = some sd := by
  refine ⟨rfl, rfl, rfl, rfl, rfl, rfl, ?_, rfl, rfl⟩
  exact dictLookup_dictInsert_self [] (make_key t a) (mkCacheEntry t a d)

/-- C10: a cache `put` touches only its own normalized key — a lookup at
any pair with a different normalized key is unchanged, and a put at a
pair with the same normalized key (names differing only by case or
surrounding whitespace) overwrites that single entry. -/
theorem claim10_put_frame (cache : Cache) (t1 a1 t2 a2 : String)
    (d : LyricsData) :
    (make_key t1 a1 ≠ make_key t2 a2 →
      get_cached_lyrics (save_lyrics_to_cache cache t1 a1 d) t2 a2 =
        get_cached_lyrics cache t2 a2)
    ∧ (make_key t1 a1 = make_key t2 a2 →
      get_cached_lyrics (save_lyrics_to_cache cache t1 a1 d) t2 a2 =
        some (mkCacheEntry t1 a1 d)) := by
  constructor
  · intro h
    exact dictLookup_dictInsert_ne cache (make_key t1 a1) (make_key t2 a2) _
      (Ne.symm h)
  · intro h
    show dictLookup (dictInsert cache (make_key t1 a1) (mkCacheEntry t1 a1 d))
      (make_key t2 a2) = some (mkCacheEntry t1 a1 d)
    rw [← h]
    exact dictLookup_dictInsert_self cache (make_key t1 a1) (mkCacheEntry t1 a1 d)

/-- C8: the index builder considers only cache entries with
lyrics_found=true (`cmd_index` filters the cache values); for each input
it builds the document exactly as the spec's fixed-order concatenation;
the upserts are exactly the non-skipped entries in order with the skipped
ones counted; and an entry with no plain-lyrics text and
instrumental=false is always skipped (counted, not an error). -/
theorem claim8_index_builder (cache : Cache) (songs : List IndexSong)
    (s : IndexSong) :
    cmd_index_inputs cache =
      ((cache.map Prod.snd).filter (fun e => e.lyrics_found)).map
        entry_to_index_song
    ∧ build_document_text s = document_text_spec s
    ∧ index_songs songs =
        ((songs.filter (fun t => !index_skip t)).map
          (fun t => (song_index_id t, build_document_text t)),
          (songs.filter index_skip).length)
    ∧ index_skip { s with plain_lyrics := none, instrumental := false } = true := by
  refine ⟨rfl, build_document_text_eq_spec s, ?_, ?_⟩
  · have h := index_songs_foldl songs ([], 0)
    simpa [index_songs] using h
  · simp [index_skip, has_plain_lyrics]

/-- C9: deduplication equals the spec's stable, order-preserving,
first-occurrence-wins filter keyed by the normalized (name, primary
artist); the result is a sublist of the input (relative order kept) with
pairwise-distinct keys; and on the spec's example the two tracks equal up
to case/whitespace collapse to the earlier one. -/
theorem claim9_dedup (songs : List Song) (source : Source) :
    deduplicate_songs songs source = dedup_spec source songs
    ∧ (deduplicate_songs songs source).Sublist songs
    ∧ (deduplicate_songs songs source).Pairwise
        (fun a b => dedup_key a source ≠ dedup_key b source)
    ∧ deduplicate_songs [song_A, song_A2, song_B] Source.spotify =
        [song_A, song_B] := by
  refine ⟨?_, dedup_go_sublist source songs [], (dedup_go_pairwise source songs []).1,
    by decide⟩
  have h := dedup_go_eq_spec source songs []
  simpa [deduplicate_songs] using h

theorem claim10_put_frame_witness :
    get_cached_lyrics (save_lyrics_to_cache [] "Song A" "X" lyrics_data_ex)
        "Song B" "Y" = get_cached_lyrics [] "Song B" "Y"
    ∧ get_cached_lyrics (save_lyrics_to_cache [] "Song A" "X" lyrics_data_ex)
        " song a " "x " = some (mkCacheEntry "Song A" "X" lyrics_data_ex) := by
  exact ⟨(claim10_put_frame [] "Song A" "X" "Song B" "Y" lyrics_data_ex).1
      (by decide),
    (claim10_put_frame [] "Song A" "X" " song a " "x " lyrics_data_ex).2
      (by decide)⟩

end MusicSearch
